import Mathlib

/-! Shallow embedding of `src/cisco_ssh_shell.py` (class `CiscoSwitch`): an SSH
client for Cisco switches built on paramiko, with methods `connect`,
`send_command`, `show_running_config`, `save_config_to_file` and `disconnect`.

The paramiko transport and the file system are modelled by an oracle
(`Transport`) that chooses, for each external call, whether it raises and what
data it yields.  Each Python method is embedded as a Lean function from the
oracle and the object state to its result; the `try/except` of each method is
made explicit: a `...Body` function returns the state, the trace and the
exception (if any) raised inside the `try` block, and the method proper
handles that exception exactly as the `except` clause does.  Observable side
effects (transport calls, `time.sleep`, `print`, file writes) are recorded in
a trace of `Event`s.  `send_command` and `save_config_to_file` never assign to
`self`, so their embeddings do not return a state. -/

namespace CiscoSSH

/-- Oracle for the external world: for each paramiko / file-system call of one
method invocation, whether it raises (`some message`) and what data it yields.
`recvChunks` are the successive `recv(65535)` results, already UTF-8 decoded;
`recv_ready()` is true while chunks remain. -/
structure Transport where
  connectExn : Option String
  invokeShellExn : Option String
  sendExn : Option String
  recvChunks : List String
  closeExn : Option String
  openExn : Option String
  writeExn : Option String
deriving DecidableEq

/-- Observable side effects of the Python methods, in order of occurrence. -/
inductive Event where
  | sshConnect (host : String) (port : Nat) (user pw : String)
  | invokeShell
  | shellSend (data : String)
  | sleep (secs : Nat)
  | recvReady (ready : Bool)
  | recv (data : String)
  | close
  | printMsg (msg : String)
  | fileWrite (name contents : String)
deriving DecidableEq

/-- Events that touch the SSH transport (as opposed to printing or the file
system). -/
def Event.isTransport : Event → Bool
  | sshConnect _ _ _ _ => true
  | invokeShell => true
  | shellSend _ => true
  | recvReady _ => true
  | recv _ => true
  | close => true
  | _ => false

/-- A `shell.send` call. -/
def Event.isSend : Event → Bool
  | shellSend _ => true
  | _ => false

/-- The fields of the Python object.  `ssh_client` and `shell` hold opaque
handles (`paramiko.SSHClient` / channel objects), modelled as `Option Nat`;
`__init__` sets both to `None`. -/
structure CiscoSwitch where
  hostname : String
  username : String
  password : String
  port : Nat
  ssh_client : Option Nat
  shell : Option Nat
deriving DecidableEq

/-- `CiscoSwitch.__init__(hostname, username, password, port=22)`. -/
def CiscoSwitch.init (hostname username password : String) (port : Nat := 22) :
    CiscoSwitch :=
  { hostname := hostname, username := username, password := password,
    port := port, ssh_client := none, shell := none }

/-- Body of `connect` (inside its `try`): build an `SSHClient` (assigning
`self.ssh_client` before any fallible call), call `ssh_client.connect`, call
`invoke_shell` (assigning `self.shell`), sleep 1 second, print.  Returns the
post-state, the trace, and the exception raised, if any. -/
def connectBody (env : Transport) (s : CiscoSwitch) :
    CiscoSwitch × List Event × Option String :=
  let s1 : CiscoSwitch := { s with ssh_client := some 0 }
  match env.connectExn with
  | some m =>
      (s1, ([Event.sshConnect s.hostname s.port s.username s.password], some m))
  | none =>
    match env.invokeShellExn with
    | some m =>
        (s1, ([Event.sshConnect s.hostname s.port s.username s.password,
               Event.invokeShell], some m))
    | none =>
        ({ s1 with shell := some 0 },
         ([Event.sshConnect s.hostname s.port s.username s.password,
           Event.invokeShell, Event.sleep 1,
           Event.printMsg ("Connected to " ++ s.hostname)], none))

/-- `CiscoSwitch.connect`: the body under `try`, with
`except Exception as e: print(f"Failed to connect to ...")`. -/
def connect (env : Transport) (s : CiscoSwitch) : CiscoSwitch × List Event :=
  match connectBody env s with
  | (s2, tr, none) => (s2, tr)
  | (s2, tr, some m) =>
      (s2, tr ++ [Event.printMsg ("Failed to connect to " ++ s.hostname
                    ++ ": " ++ m)])

/-- The whitespace set stripped by Python `str.strip()` (ASCII part: space,
tab, newline, carriage return, vertical tab, form feed). -/
def pyIsSpace (c : Char) : Bool :=
  c = ' ' || c = '\t' || c = '\n' || c = '\r' || c = '\x0b' || c = '\x0c'

/-- `str.strip()` on the underlying character list: drop whitespace from the
front, then from the back. -/
def stripChars (l : List Char) : List Char :=
  (((l.dropWhile pyIsSpace).reverse.dropWhile pyIsSpace)).reverse

/-- Python `output.strip()`. -/
def pyStrip (s : String) : String :=
  String.mk (stripChars s.data)

/-- Trace of the drain loop
`while self.shell.recv_ready(): output += self.shell.recv(65535).decode('utf-8')`:
each iteration polls `recv_ready` (true) and receives one chunk; the loop
exits on the final `recv_ready` returning false. -/
def drainEvents : List String → List Event
  | [] => [Event.recvReady false]
  | c :: cs => Event.recvReady true :: Event.recv c :: drainEvents cs

/-- Body of `send_command` (inside its `try`): raise if `self.shell` is unset,
else send `command + "\n"`, sleep `timeout` seconds, drain the receive buffer
and return the concatenated output stripped of surrounding whitespace.
Returns the result, the trace, and the exception raised, if any. -/
def send_commandBody (env : Transport) (s : CiscoSwitch) (command : String)
    (timeout : Nat) : Option String × List Event × Option String :=
  if s.shell.isNone then
    (none, ([], some ("Not connected to the switch. Call connect() first.")))
  else
    match env.sendExn with
    | some m => (none, ([Event.shellSend (command ++ "\n")], some m))
    | none =>
        (some (pyStrip (String.join env.recvChunks)),
         (Event.shellSend (command ++ "\n") :: Event.sleep timeout ::
            drainEvents env.recvChunks, none))

/-- `CiscoSwitch.send_command(command, timeout=2)`: the body under `try`, with
`except Exception as e: print(f"Error sending command '...': ..."); return None`. -/
def send_command (env : Transport) (s : CiscoSwitch) (command : String)
    (timeout : Nat := 2) : Option String × List Event :=
  match send_commandBody env s command timeout with
  | (res, tr, none) => (res, tr)
  | (_, tr, some m) =>
      (none, tr ++ [Event.printMsg ("Error sending command \x27" ++ command
                      ++ "\x27: " ++ m)])

/-- `CiscoSwitch.show_running_config`: exactly
`self.send_command("show running-config", timeout=5)`. -/
def show_running_config (env : Transport) (s : CiscoSwitch) :
    Option String × List Event :=
  send_command env s ("show running-config") 5

/-- The local file system: file name to contents (`none` = no such file). -/
def FileSystem := String → Option String

/-- `CiscoSwitch.save_config_to_file(config, filename="switch_config.cfg")`:
`open(filename, "w")` truncates the file; a failing `open` leaves the file
system unchanged, a `write` failing after a successful `open` leaves the file
truncated to empty; both are caught and printed.  On success the file holds
exactly `config`. -/
def save_config_to_file (env : Transport) (fs : FileSystem) (config : String)
    (filename : String := "switch_config.cfg") : FileSystem × List Event :=
  match env.openExn with
  | some m =>
      (fs, [Event.printMsg ("Failed to save configuration to " ++ filename
              ++ ": " ++ m)])
  | none =>
    match env.writeExn with
    | some m =>
        (fun n => if n = filename then some ("") else fs n,
         [Event.printMsg ("Failed to save configuration to " ++ filename
            ++ ": " ++ m)])
    | none =>
        (fun n => if n = filename then some config else fs n,
         [Event.fileWrite filename config,
          Event.printMsg ("Configuration saved to " ++ filename)])

/-- Body of `disconnect` (inside its `try`): `if self.ssh_client:
self.ssh_client.close()`, then print.  Neither branch assigns to `self`, so
the state is returned unchanged. -/
def disconnectBody (env : Transport) (s : CiscoSwitch) :
    CiscoSwitch × List Event × Option String :=
  match s.ssh_client with
  | none => (s, ([Event.printMsg ("Disconnected from " ++ s.hostname)], none))
  | some _ =>
    match env.closeExn with
    | some m => (s, ([Event.close], some m))
    | none =>
        (s, ([Event.close,
              Event.printMsg ("Disconnected from " ++ s.hostname)], none))

/-- `CiscoSwitch.disconnect`: the body under `try`, with
`except Exception as e: print(f"Error disconnecting from ...")`. -/
def disconnect (env : Transport) (s : CiscoSwitch) : CiscoSwitch × List Event :=
  match disconnectBody env s with
  | (s2, tr, none) => (s2, tr)
  | (s2, tr, some m) =>
      (s2, tr ++ [Event.printMsg ("Error disconnecting from " ++ s.hostname
                    ++ ": " ++ m)])

/-- States of the object reachable through its constructor and the
state-mutating methods (`send_command`, `show_running_config` and
`save_config_to_file` never assign to `self`). -/
inductive Reachable : CiscoSwitch → Prop where
  | init (h u p : String) (port : Nat) : Reachable (CiscoSwitch.init h u p port)
  | connectStep (env : Transport) {s : CiscoSwitch} :
      Reachable s → Reachable (connect env s).1
  | disconnectStep (env : Transport) {s : CiscoSwitch} :
      Reachable s → Reachable (disconnect env s).1

/-- A fully failing oracle, for exercising every exception path. -/
def envFail : Transport :=
  { connectExn := some ("boom"), invokeShellExn := some ("boom"),
    sendExn := some ("boom"), recvChunks := [],
    closeExn := some ("boom"), openExn := some ("boom"),
    writeExn := some ("boom") }

/-- A fully succeeding oracle delivering two output chunks. -/
def envOk : Transport :=
  { connectExn := none, invokeShellExn := none, sendExn := none,
    recvChunks := [(" hello"), ("\n")], closeExn := none, openExn := none,
    writeExn := none }

/-- The example driver state from `__main__`. -/
def sampleSwitch : CiscoSwitch :=
  CiscoSwitch.init ("192.168.1.1") ("admin") ("password") 22

/-- An empty file system. -/
def emptyFS : FileSystem := fun _ => none

/-- A one-file file system. -/
def fsExample : FileSystem :=
  fun n => if n = ("a.cfg") then some ("old") else none

/-! Helper lemmas about `str.strip()` and the drain loop. -/

/-- The first element surviving a leading `dropWhile` fails the predicate. -/
theorem head?_dropWhile_false (p : Char → Bool) (l : List Char) (c : Char)
    (h : (l.dropWhile p).head? = some c) : p c = false := by
  have hne : l.dropWhile p ≠ [] := by
    intro hn
    rw [hn] at h
    simp at h
  have h2 := List.head_dropWhile_not p l hne
  rw [List.head?_eq_head hne, Option.some_inj] at h
  rw [← h]
  exact h2

/-- A nonempty `dropWhile` keeps the last element of the list. -/
theorem getLast?_dropWhile (p : Char → Bool) :
    ∀ l : List Char, l.dropWhile p ≠ [] →
      (l.dropWhile p).getLast? = l.getLast? := by
  intro l
  induction l with
  | nil => intro h; simp [List.dropWhile] at h
  | cons a l ih =>
    intro h
    by_cases hp : p a
    · rw [List.dropWhile_cons_of_pos hp] at h ⊢
      rw [ih h]
      cases l with
      | nil => simp [List.dropWhile] at h
      | cons b l => simp
    · rw [List.dropWhile_cons_of_neg hp]

/-- The first character of a stripped string is not whitespace. -/
theorem stripChars_head? (l : List Char) (c : Char)
    (h : (stripChars l).head? = some c) : pyIsSpace c = false := by
  unfold stripChars at h
  rw [List.head?_reverse] at h
  have hne : (l.dropWhile pyIsSpace).reverse.dropWhile pyIsSpace ≠ [] := by
    intro hn
    rw [hn] at h
    simp at h
  rw [getLast?_dropWhile _ _ hne, List.getLast?_reverse] at h
  exact head?_dropWhile_false _ _ _ h

/-- The last character of a stripped string is not whitespace. -/
theorem stripChars_getLast? (l : List Char) (c : Char)
    (h : (stripChars l).getLast? = some c) : pyIsSpace c = false := by
  unfold stripChars at h
  rw [List.getLast?_reverse] at h
  exact head?_dropWhile_false _ _ _ h

/-- Stripping an all-whitespace character list yields the empty list. -/
theorem stripChars_all_space (l : List Char) (h : l.all pyIsSpace) :
    stripChars l = [] := by
  unfold stripChars
  have h1 : l.dropWhile pyIsSpace = [] := by
    rw [List.dropWhile_eq_nil_iff]
    intro x hx
    exact List.all_eq_true.1 h x hx
  rw [h1]
  rfl

/-- The drain loop performs no `send` call. -/
theorem countP_isSend_drainEvents (l : List String) :
    (drainEvents l).countP Event.isSend = 0 := by
  induction l with
  | nil => rfl
  | cons c cs ih => simp [drainEvents, List.countP_cons, Event.isSend, ih]

/-- `send_command` on a disconnected object: `None` result, only the error
print in the trace, no transport events (shared by several theorems below). -/
theorem send_command_not_connected (env : Transport) (s : CiscoSwitch)
    (c : String) (t : Nat) (h : s.shell = none) :
    (send_command env s c t).1 = none ∧
    (send_command env s c t).2 =
      [Event.printMsg ("Error sending command \x27" ++ c ++ "\x27: "
         ++ ("Not connected to the switch. Call connect() first."))] ∧
    (∀ e ∈ (send_command env s c t).2, e.isTransport = false) := by
  unfold send_command send_commandBody
  rw [h]
  simp [Event.isTransport]

/-- `disconnect` never mutates the object's fields. -/
theorem disconnect_state (env : Transport) (s : CiscoSwitch) :
    (disconnect env s).1 = s := by
  unfold disconnect disconnectBody
  cases s.ssh_client with
  | none => rfl
  | some x =>
    cases env.closeExn with
    | none => rfl
    | some m => rfl

/-! The claims. -/

/-- Claim C1: on an object on which `connect` has not successfully completed
(`shell` still `None`), calling `send_command` or `show_running_config` takes
the not-connected failure path: it returns `None` after logging, and performs
no transport send or receive call. -/
theorem cisco_c1 (env : Transport) (s : CiscoSwitch) (c : String) (t : Nat)
    (h : s.shell = none) :
    (send_command env s c t).1 = none ∧
    (send_command env s c t).2 =
      [Event.printMsg ("Error sending command \x27" ++ c ++ "\x27: "
         ++ ("Not connected to the switch. Call connect() first."))] ∧
    (∀ e ∈ (send_command env s c t).2, e.isTransport = false) ∧
    (show_running_config env s).1 = none ∧
    (∀ e ∈ (show_running_config env s).2, e.isTransport = false) := by
  refine ⟨(send_command_not_connected env s c t h).1,
          (send_command_not_connected env s c t h).2.1,
          (send_command_not_connected env s c t h).2.2, ?_, ?_⟩
  · exact (send_command_not_connected env s ("show running-config") 5 h).1
  · exact (send_command_not_connected env s ("show running-config") 5 h).2.2

/-- Witness for C1 at the example driver state before any `connect`. -/
theorem cisco_c1_witness :
    (send_command envOk sampleSwitch ("show version") 2).1 = none ∧
    (show_running_config envOk sampleSwitch).1 = none :=
  ⟨(cisco_c1 envOk sampleSwitch ("show version") 2 rfl).1,
   (cisco_c1 envOk sampleSwitch ("show version") 2 rfl).2.2.2.1⟩

/-- Claim C2: a successful `save_config_to_file config filename` leaves the
target file containing exactly `config`, replacing any previous contents and
touching no other file; the default target is `switch_config.cfg`. -/
theorem cisco_c2 (env : Transport) (fs : FileSystem) (config fn : String)
    (ho : env.openExn = none) (hw : env.writeExn = none) :
    ((save_config_to_file env fs config fn).1 fn = some config) ∧
    (∀ n, n ≠ fn → (save_config_to_file env fs config fn).1 n = fs n) ∧
    save_config_to_file env fs config =
      save_config_to_file env fs config ("switch_config.cfg") := by
  unfold save_config_to_file
  rw [ho, hw]
  exact ⟨by simp, fun n hn => by simp [hn], rfl⟩

/-- Witness for C2: saving over a file that previously held other text
replaces its contents and leaves another file untouched. -/
theorem cisco_c2_witness :
    ((save_config_to_file envOk fsExample ("interface Vlan1")
        ("a.cfg")).1 ("a.cfg") = some ("interface Vlan1")) ∧
    ((save_config_to_file envOk fsExample ("interface Vlan1")
        ("a.cfg")).1 ("b.cfg") = fsExample ("b.cfg")) :=
  ⟨(cisco_c2 envOk fsExample ("interface Vlan1") ("a.cfg") rfl rfl).1,
   (cisco_c2 envOk fsExample ("interface Vlan1") ("a.cfg") rfl rfl).2.1
     ("b.cfg") (by decide)⟩

/-- Counterexample to C3 as stated: the value returned is not the drained
output itself.  With one available chunk "hello\n", the drained output is
"hello\n" but the method returns the stripped "hello". -/
theorem cisco_c3_cex :
    (send_command ({ envOk with recvChunks := [("hello\n")] })
        ((connect envOk sampleSwitch).1) ("show version") 2).1 ≠
      some (String.join [("hello\n")]) := by decide

/-- Claim C3 (amended): on a connected client whose send does not raise,
`send_command command timeout` sends `command` followed by a newline, sleeps
the fixed `timeout` duration (default 2 seconds), then drains all immediately
available chunks in a loop, and returns that drained output with leading and
trailing whitespace removed. -/
theorem cisco_c3 (env : Transport) (s : CiscoSwitch) (c : String) (t : Nat)
    (hsh : s.shell.isSome) (hs : env.sendExn = none) :
    send_command env s c t =
      (some (pyStrip (String.join env.recvChunks)),
       Event.shellSend (c ++ "\n") :: Event.sleep t ::
         drainEvents env.recvChunks) ∧
    send_command env s c = send_command env s c 2 := by
  obtain ⟨x, hx⟩ := Option.isSome_iff_exists.1 hsh
  unfold send_command send_commandBody
  rw [hx, hs]
  exact ⟨rfl, rfl⟩

/-- Witness for C3 (amended) on a freshly connected example object. -/
theorem cisco_c3_witness :
    send_command envOk ((connect envOk sampleSwitch).1) ("show version") 2 =
      (some (pyStrip (String.join envOk.recvChunks)),
       Event.shellSend (("show version") ++ "\n") :: Event.sleep 2 ::
         drainEvents envOk.recvChunks) ∧
    send_command envOk ((connect envOk sampleSwitch).1) ("show version") =
      send_command envOk ((connect envOk sampleSwitch).1) ("show version") 2 :=
  cisco_c3 envOk ((connect envOk sampleSwitch).1) ("show version") 2
    (by decide) rfl

/-- If the body of `connect` raises, the `except` clause prints the failure
message and the method returns normally. -/
theorem connect_raise (env : Transport) (s s2 : CiscoSwitch) (tr : List Event)
    (m : String) (h : connectBody env s = (s2, tr, some m)) :
    connect env s =
      (s2, tr ++ [Event.printMsg ("Failed to connect to " ++ s.hostname
                    ++ ": " ++ m)]) := by
  unfold connect
  rw [h]

/-- If the body of `send_command` raises, the `except` clause prints the
error message and the method returns `None`. -/
theorem send_command_raise (env : Transport) (s : CiscoSwitch) (c : String)
    (t : Nat) (res : Option String) (tr : List Event) (m : String)
    (h : send_commandBody env s c t = (res, tr, some m)) :
    send_command env s c t =
      (none, tr ++ [Event.printMsg ("Error sending command \x27" ++ c
                      ++ "\x27: " ++ m)]) := by
  unfold send_command
  rw [h]

/-- If the body of `disconnect` raises, the `except` clause prints the error
message and the method returns normally. -/
theorem disconnect_raise (env : Transport) (s s2 : CiscoSwitch)
    (tr : List Event) (m : String)
    (h : disconnectBody env s = (s2, tr, some m)) :
    disconnect env s =
      (s2, tr ++ [Event.printMsg ("Error disconnecting from " ++ s.hostname
                    ++ ": " ++ m)]) := by
  unfold disconnect
  rw [h]

/-- If the body of `disconnect` does not raise, the method returns its
result unchanged. -/
theorem disconnect_ok (env : Transport) (s s2 : CiscoSwitch) (tr : List Event)
    (h : disconnectBody env s = (s2, tr, none)) :
    disconnect env s = (s2, tr) := by
  unfold disconnect
  rw [h]

/-- `send_command` performs at most one `shell.send` call per invocation. -/
theorem send_command_sends_at_most_once (env : Transport) (s : CiscoSwitch)
    (c : String) (t : Nat) :
    (send_command env s c t).2.countP Event.isSend ≤ 1 := by
  by_cases hsh : s.shell.isNone
  · simp [send_command, send_commandBody, hsh, Event.isSend]
  · cases hs : env.sendExn with
    | some m =>
        simp [send_command, send_commandBody, hsh, hs, List.countP_cons,
          Event.isSend]
    | none =>
        simp [send_command, send_commandBody, hsh, hs, List.countP_cons,
          countP_isSend_drainEvents, Event.isSend]

/-- `connect` always leaves `ssh_client` assigned: the `SSHClient` object is
created and stored before any fallible transport call. -/
theorem connect_ssh_client (env : Transport) (s : CiscoSwitch) :
    (connect env s).1.ssh_client = some 0 := by
  unfold connect connectBody
  cases hc : env.connectExn with
  | some m => rfl
  | none =>
    cases hi : env.invokeShellExn with
    | some m => rfl
    | none => rfl

/-- A fully successful `connect` assigns the `shell` handle. -/
theorem connect_success_shell (env : Transport) (s : CiscoSwitch)
    (hc : env.connectExn = none) (hi : env.invokeShellExn = none) :
    (connect env s).1.shell = some 0 := by
  unfold connect connectBody
  rw [hc, hi]

/-- A failing `connect` leaves `shell` unchanged. -/
theorem connect_fail_shell (env : Transport) (s : CiscoSwitch)
    (hfail : env.connectExn.isSome ∨ env.invokeShellExn.isSome) :
    (connect env s).1.shell = s.shell := by
  unfold connect connectBody
  cases hc : env.connectExn with
  | some m => rfl
  | none =>
    cases hi : env.invokeShellExn with
    | some m => rfl
    | none =>
        rw [hc, hi] at hfail
        simp at hfail

/-- Claim C4: every public operation catches every exception at its own
boundary, prints a message, and either returns `None` or proceeds; no
exception propagates to the caller (each method below is a total function
equal to its handled body), and `send_command` performs no retry. -/
theorem cisco_c4 (env : Transport) (s : CiscoSwitch) (c : String) (t : Nat)
    (fs : FileSystem) (config fn : String) :
    (∀ m, (connectBody env s).2.2 = some m →
      connect env s = ((connectBody env s).1, (connectBody env s).2.1 ++
        [Event.printMsg ("Failed to connect to " ++ s.hostname ++ ": "
           ++ m)])) ∧
    (∀ m, (send_commandBody env s c t).2.2 = some m →
      send_command env s c t = (none, (send_commandBody env s c t).2.1 ++
        [Event.printMsg ("Error sending command \x27" ++ c ++ "\x27: "
           ++ m)])) ∧
    (∀ m, (send_commandBody env s ("show running-config") 5).2.2 = some m →
      (show_running_config env s).1 = none) ∧
    ((send_command env s c t).2.countP Event.isSend ≤ 1) ∧
    (∀ m, env.openExn = some m →
      save_config_to_file env fs config fn = (fs,
        [Event.printMsg ("Failed to save configuration to " ++ fn ++ ": "
           ++ m)])) ∧
    (∀ m, env.openExn = none → env.writeExn = some m →
      (save_config_to_file env fs config fn).2 =
        [Event.printMsg ("Failed to save configuration to " ++ fn ++ ": "
           ++ m)]) ∧
    (∀ m, (disconnectBody env s).2.2 = some m →
      disconnect env s = ((disconnectBody env s).1,
        (disconnectBody env s).2.1 ++
        [Event.printMsg ("Error disconnecting from " ++ s.hostname ++ ": "
           ++ m)])) := by
  refine ⟨?_, ?_, ?_, ?_, ?_, ?_, ?_⟩
  · intro m hm
    exact connect_raise env s _ _ m (by rw [← hm])
  · intro m hm
    exact send_command_raise env s c t _ _ m (by rw [← hm])
  · intro m hm
    have h2 := send_command_raise env s ("show running-config") 5 _ _ m
      (by rw [← hm])
    unfold show_running_config
    rw [h2]
  · exact send_command_sends_at_most_once env s c t
  · intro m hm
    unfold save_config_to_file
    rw [hm]
  · intro m ho hw
    unfold save_config_to_file
    rw [ho, hw]
  · intro m hm
    exact disconnect_raise env s _ _ m (by rw [← hm])

/-- Witness for C4: a fully failing transport exercises the `connect` failure
print, and the no-retry bound holds on a connected object with a failing
send. -/
theorem cisco_c4_witness :
    connect envFail sampleSwitch =
      ((connectBody envFail sampleSwitch).1,
       (connectBody envFail sampleSwitch).2.1 ++
         [Event.printMsg ("Failed to connect to " ++ sampleSwitch.hostname
            ++ ": " ++ ("boom"))]) ∧
    ((send_command envFail ((connect envOk sampleSwitch).1) ("show version")
        2).2.countP Event.isSend ≤ 1) :=
  ⟨(cisco_c4 envFail sampleSwitch ("show version") 2 emptyFS ("x")
      ("y")).1 ("boom") rfl,
   (cisco_c4 envFail ((connect envOk sampleSwitch).1) ("show version") 2
      emptyFS ("x") ("y")).2.2.2.1⟩

/-- Claim C5: a failing `connect` reports the underlying error and leaves a
previously disconnected client disconnected: `shell` stays `None`, the last
trace event is the failure print, and any later `send_command` takes the
not-connected path with no transport call. -/
theorem cisco_c5 (env env2 : Transport) (s : CiscoSwitch) (c : String)
    (t : Nat) (hdisc : s.shell = none)
    (hfail : env.connectExn.isSome ∨ env.invokeShellExn.isSome) :
    (connect env s).1.shell = none ∧
    (∃ m, (connect env s).2.getLast? =
      some (Event.printMsg ("Failed to connect to " ++ s.hostname ++ ": "
         ++ m))) ∧
    (send_command env2 (connect env s).1 c t).1 = none ∧
    (∀ e ∈ (send_command env2 (connect env s).1 c t).2,
      e.isTransport = false) := by
  have hsh : (connect env s).1.shell = none := by
    rw [connect_fail_shell env s hfail]
    exact hdisc
  refine ⟨hsh, ?_, (send_command_not_connected env2 _ c t hsh).1,
          (send_command_not_connected env2 _ c t hsh).2.2⟩
  unfold connect connectBody
  cases hc : env.connectExn with
  | some m => exact ⟨m, by simp⟩
  | none =>
    cases hi : env.invokeShellExn with
    | some m => exact ⟨m, by simp⟩
    | none =>
        rw [hc, hi] at hfail
        simp at hfail

/-- Witness for C5: the example object with a fully failing transport. -/
theorem cisco_c5_witness :
    (connect envFail sampleSwitch).1.shell = none ∧
    (send_command envOk (connect envFail sampleSwitch).1
        ("show version") 2).1 = none :=
  ⟨(cisco_c5 envFail envOk sampleSwitch ("show version") 2 rfl
      (Or.inl rfl)).1,
   (cisco_c5 envFail envOk sampleSwitch ("show version") 2 rfl
      (Or.inl rfl)).2.2.1⟩

/-- Claim C6: `disconnect` never raises, regardless of session state: it
always returns normally with the object unchanged; with no `ssh_client` it
only prints, a raising `close` is caught and reported, and a clean body
returns its own trace. -/
theorem cisco_c6 (env : Transport) (s : CiscoSwitch) :
    (disconnect env s).1 = s ∧
    (s.ssh_client = none →
      disconnect env s =
        (s, [Event.printMsg ("Disconnected from " ++ s.hostname)])) ∧
    (∀ m, (disconnectBody env s).2.2 = some m →
      disconnect env s = ((disconnectBody env s).1,
        (disconnectBody env s).2.1 ++
        [Event.printMsg ("Error disconnecting from " ++ s.hostname ++ ": "
           ++ m)])) ∧
    ((disconnectBody env s).2.2 = none →
      disconnect env s = ((disconnectBody env s).1,
        (disconnectBody env s).2.1)) := by
  refine ⟨disconnect_state env s, ?_, ?_, ?_⟩
  · intro h
    unfold disconnect disconnectBody
    rw [h]
  · intro m hm
    exact disconnect_raise env s _ _ m (by rw [← hm])
  · intro h
    exact disconnect_ok env s _ _ (by rw [← h])

/-- Witness for C6: a failed `connect` attempt (so `ssh_client` is set) with
a raising `close`, and a never-connected object. -/
theorem cisco_c6_witness :
    (disconnect envFail (connect envFail sampleSwitch).1).1 =
      (connect envFail sampleSwitch).1 ∧
    disconnect envFail sampleSwitch =
      (sampleSwitch,
       [Event.printMsg ("Disconnected from " ++ sampleSwitch.hostname)]) ∧
    disconnect envFail (connect envFail sampleSwitch).1 =
      ((disconnectBody envFail (connect envFail sampleSwitch).1).1,
       (disconnectBody envFail (connect envFail sampleSwitch).1).2.1 ++
       [Event.printMsg ("Error disconnecting from "
          ++ (connect envFail sampleSwitch).1.hostname ++ ": "
          ++ ("boom"))]) :=
  ⟨(cisco_c6 envFail (connect envFail sampleSwitch).1).1,
   (cisco_c6 envFail sampleSwitch).2.1 rfl,
   (cisco_c6 envFail (connect envFail sampleSwitch).1).2.2.1 ("boom") rfl⟩

/-- Claim C7: `show_running_config` is exactly `send_command` applied to the
fixed string "show running-config" with a fixed delay of 5 seconds, longer
than `send_command`'s default delay of 2; it returns whatever that call
returns. -/
theorem cisco_c7 (env : Transport) (s : CiscoSwitch) :
    show_running_config env s =
      send_command env s ("show running-config") 5 ∧
    (∀ c, send_command env s c = send_command env s c 2) ∧
    2 < 5 :=
  ⟨rfl, fun _ => rfl, by decide⟩

/-- Claim C8: `disconnect` leaves `shell` and `ssh_client` unchanged; hence
after a successful `connect` followed by `disconnect`, a later `send_command`
passes the shell-is-set check and attempts a transport call (its first traced
event is a `shell.send`) instead of the not-connected path. -/
theorem cisco_c8 (envc envd envs : Transport) (s : CiscoSwitch) (c : String)
    (t : Nat) (hc : envc.connectExn = none) (hi : envc.invokeShellExn = none) :
    ((disconnect envd s).1.shell = s.shell ∧
     (disconnect envd s).1.ssh_client = s.ssh_client) ∧
    (disconnect envd (connect envc s).1).1.shell.isSome ∧
    (send_command envs (disconnect envd (connect envc s).1).1 c t).2.head? =
      some (Event.shellSend (c ++ "\n")) := by
  have hcs : (connect envc s).1.shell = some 0 :=
    connect_success_shell envc s hc hi
  refine ⟨⟨by rw [disconnect_state], by rw [disconnect_state]⟩, ?_, ?_⟩
  · rw [disconnect_state, hcs]
    rfl
  · rw [disconnect_state]
    unfold send_command send_commandBody
    rw [hcs]
    cases hsx : envs.sendExn with
    | some m => simp
    | none => simp

/-- Witness for C8: connect with a clean transport, disconnect and send with
failing transports. -/
theorem cisco_c8_witness :
    ((disconnect envFail sampleSwitch).1.shell = sampleSwitch.shell ∧
     (disconnect envFail sampleSwitch).1.ssh_client =
       sampleSwitch.ssh_client) ∧
    (disconnect envFail (connect envOk sampleSwitch).1).1.shell.isSome ∧
    (send_command envFail
        (disconnect envFail (connect envOk sampleSwitch).1).1
        ("show version") 2).2.head? =
      some (Event.shellSend (("show version") ++ "\n")) :=
  cisco_c8 envOk envFail envFail sampleSwitch ("show version") 2 rfl rfl

/-- Claim C9: a successful `send_command` returns the drained output with
leading and trailing whitespace removed; the result never begins or ends with
whitespace, and an all-whitespace response is returned as the empty
string. -/
theorem cisco_c9 (env : Transport) (s : CiscoSwitch) (c : String) (t : Nat)
    (hsh : s.shell.isSome) (hs : env.sendExn = none) :
    (send_command env s c t).1 =
      some (pyStrip (String.join env.recvChunks)) ∧
    (∀ c0, (pyStrip (String.join env.recvChunks)).data.head? = some c0 →
      pyIsSpace c0 = false) ∧
    (∀ c0, (pyStrip (String.join env.recvChunks)).data.getLast? = some c0 →
      pyIsSpace c0 = false) ∧
    ((String.join env.recvChunks).data.all pyIsSpace →
      pyStrip (String.join env.recvChunks) = ("")) := by
  obtain ⟨x, hx⟩ := Option.isSome_iff_exists.1 hsh
  refine ⟨?_, ?_, ?_, ?_⟩
  · unfold send_command send_commandBody
    rw [hx, hs]
    rfl
  · intro c0 h0
    exact stripChars_head? _ c0 h0
  · intro c0 h0
    exact stripChars_getLast? _ c0 h0
  · intro hall
    unfold pyStrip
    rw [stripChars_all_space _ hall]

/-- Witness for C9: a connected object receiving chunks that join to
" hello\n". -/
theorem cisco_c9_witness :
    (send_command envOk ((connect envOk sampleSwitch).1)
        ("show version") 2).1 =
      some (pyStrip (String.join envOk.recvChunks)) :=
  (cisco_c9 envOk ((connect envOk sampleSwitch).1) ("show version") 2
    (by decide) rfl).1

/-- Claim C10: in every reachable state, `shell` is set only if `ssh_client`
is set; `shell` changes only through a `connect` in which both the
authentication and the `invoke_shell` call succeeded, and `disconnect` never
changes `shell`. -/
theorem cisco_c10 :
    (∀ s, Reachable s → s.shell.isSome → s.ssh_client.isSome) ∧
    (∀ env s, (connect env s).1.shell ≠ s.shell →
      env.connectExn = none ∧ env.invokeShellExn = none ∧
      (connect env s).1.shell = some 0 ∧
      (connect env s).1.ssh_client = some 0) ∧
    (∀ env s, (disconnect env s).1.shell = s.shell) := by
  refine ⟨?_, ?_, ?_⟩
  · intro s hr
    induction hr with
    | init h u p port =>
        intro hsome
        simp [CiscoSwitch.init] at hsome
    | connectStep env hs ih =>
        intro _
        rw [connect_ssh_client]
        rfl
    | disconnectStep env hs ih =>
        rw [disconnect_state]
        exact ih
  · intro env s hne
    cases hc : env.connectExn with
    | some m =>
        exact absurd (connect_fail_shell env s (Or.inl (by rw [hc]; rfl))) hne
    | none =>
      cases hi : env.invokeShellExn with
      | some m =>
          exact absurd (connect_fail_shell env s (Or.inr (by rw [hi]; rfl)))
            hne
      | none =>
          exact ⟨rfl, rfl, connect_success_shell env s hc hi,
                 connect_ssh_client env s⟩
  · intro env s
    rw [disconnect_state]

/-- Witness for C10 at the state reached by a successful `connect` from the
example driver state. -/
theorem cisco_c10_witness :
    ((connect envOk sampleSwitch).1).ssh_client.isSome :=
  cisco_c10.1 ((connect envOk sampleSwitch).1)
    (Reachable.connectStep envOk
      (Reachable.init ("192.168.1.1") ("admin") ("password") 22))
    (by decide)

end CiscoSSH
